import Mathlib

/-!
Shallow embedding of `src/src/cryptenroll/cryptenroll-fido2.c` (systemd
cryptenroll FIDO2 enrollment and recovery) together with the storage and
device collaborators it calls, and proofs of the specification claims.

The two pipelines of the file:
  * `enroll_fido2` — device exchange, base64 encoding of the derived secret,
    minimal-PBKDF setting, keyslot addition, JSON token record write;
  * `load_volume_key_fido2` — device-backed secret acquisition, base64
    encoding, and volume-key unwrap against any slot.

External collaborators (`fido2_generate_hmac_hash`, `acquire_fido2_key_auto`,
`cryptsetup_set_minimal_pbkdf`, `crypt_keyslot_add_by_volume_key`,
`cryptsetup_add_token_json`) are modelled as outcome oracles; the on-disk
LUKS state (keyslots + token records) is threaded explicitly.  The C
`_cleanup_` attribute discipline on secret buffers is embedded as an explicit
cleanup ledger: at each exit path, every buffer allocated at that point is
paired with the cleanup handler its declaration carries in the source.
-/

namespace Fido2

/-- Byte strings (device credentials, salts, secrets, volume keys). -/
abbrev Bytes := List Nat

/-- The base64 alphabet used by the standard base64 encoding. -/
def base64Alphabet : List Char :=
  "ABCDEFGHIJKLMNOPQRSTUVWXYZabcdefghijklmnopqrstuvwxyz0123456789+/".toList

/-- Character for a 6-bit group. -/
def base64char (n : Nat) : Char := base64Alphabet.getD n '?'

/-- Modelled from the spec: `base64mem` (declared in `hexdecoct.h`; its body is
not under `src/`).  The shared SecretEncoder: deterministic, standard padded
base64 ("standard reversible binary-to-text expansion, no truncation", §4.1).
Allocation failure of the C function is modelled by the `base64Oom` flag of
each call site's outcome record, not here: the encoding itself is total. -/
def base64mem : Bytes → String
  | b1 :: b2 :: b3 :: rest =>
      let n := b1 % 256 * 65536 + b2 % 256 * 256 + b3 % 256
      String.mk [base64char (n / 262144), base64char (n / 4096 % 64),
                 base64char (n / 64 % 64), base64char (n % 64)] ++ base64mem rest
  | [b1, b2] =>
      let n := b1 % 256 * 65536 + b2 % 256 * 256
      String.mk [base64char (n / 262144), base64char (n / 4096 % 64),
                 base64char (n / 64 % 64), '=']
  | [b1] =>
      let n := b1 % 256 * 65536
      String.mk [base64char (n / 262144), base64char (n / 4096 % 64), '=', '=']
  | [] => ""

/-- The `Fido2EnrollFlags` bitset (`FIDO2ENROLL_PIN`, `FIDO2ENROLL_UP`,
`FIDO2ENROLL_UV`). -/
structure Fido2EnrollFlags where
  pin : Bool
  up : Bool
  uv : Bool
deriving DecidableEq, Repr

/-- The JSON token record built by `enroll_fido2` (source lines 133–141):
field names follow the JSON keys. -/
structure TokenRecord where
  type : String
  keyslots : List String
  fido2Credential : String
  fido2Salt : String
  fido2Rp : String
  fido2ClientPinRequired : Bool
  fido2UpRequired : Bool
  fido2UvRequired : Bool
deriving DecidableEq, Repr

/-- A LUKS keyslot: the wrapped volume key, protected by a passphrase. -/
structure Keyslot where
  index : Nat
  passphrase : String
  key : Bytes
deriving DecidableEq, Repr

/-- The volume state visible to this file: device identity plus the LUKS
header contents (keyslots and JSON token records) and the PBKDF setting. -/
structure Volume where
  uuid : Option String
  deviceName : String
  keyslots : List Keyslot
  tokens : List TokenRecord
  minimalPbkdf : Bool
deriving DecidableEq, Repr

/-- Successful result of `fido2_generate_hmac_hash`: credential id, salt,
derived secret, and the effective (possibly upgraded) enrollment flags the
device settled on, written back through the final `&lock_with` out-parameter
of the call (source line 107). -/
structure Fido2HmacResult where
  cid : Bytes
  salt : Bytes
  secret : Bytes
  effectiveFlags : Fido2EnrollFlags
deriving DecidableEq, Repr

/-- The argument tuple `enroll_fido2` passes to `fido2_generate_hmac_hash`
(source lines 91–107). -/
structure DeviceRequest where
  device : String
  rpId : String
  rpName : String
  userId : String
  userName : String
  userDisplayName : String
  askpwIconName : String
  askpwCredential : String
  lockWith : Fido2EnrollFlags
  credAlg : Int
deriving DecidableEq, Repr

/-- The request construction of `enroll_fido2` (source lines 87–107):
`node = crypt_get_device_name(cd)`, `un = strempty(crypt_get_uuid(cd))`
(empty string when the volume has no UUID), user id and user name both `un`,
display name `node`, fixed relying party `"io.systemd.cryptsetup"`. -/
def enrollDeviceRequest (vol : Volume) (device : String)
    (lockWith : Fido2EnrollFlags) (credAlg : Int) : DeviceRequest :=
  let node := vol.deviceName
  let un := vol.uuid.getD ""
  { device := device
    rpId := "io.systemd.cryptsetup"
    rpName := "Encrypted Volume"
    userId := un
    userName := un
    userDisplayName := node
    askpwIconName := "drive-harddisk"
    askpwCredential := "cryptenroll.fido2-pin"
    lockWith := lockWith
    credAlg := credAlg }

/-- Storage-engine operations `enroll_fido2` can perform, in call order. -/
inductive StorageOp
  | setMinimalPbkdf
  | keyslotAdd
  | tokenAdd
deriving DecidableEq, Repr

/-- The local buffers of the two functions that are released through a
`_cleanup_` attribute (source lines 19–20 and 72–77). -/
inductive BufKind
  | decrypted_key
  | passphrase
  | salt
  | secret
  | base64_encoded
  | cid
  | keyslot_as_string
deriving DecidableEq, Repr

/-- Cleanup handlers attached by `_cleanup_(...)` declarations. -/
inductive CleanupHandler
  | erase_and_freep
  | freep
deriving DecidableEq, Repr

/-- The handler each buffer's declaration carries in the source:
`_cleanup_(erase_and_freep)` on `decrypted_key`, `passphrase` (lines 19–20)
and on `salt`, `secret`, `base64_encoded` (lines 72–73);
plain `_cleanup_free_` on `keyslot_as_string` and `cid` (lines 75, 77). -/
def bufCleanup : BufKind → CleanupHandler
  | .decrypted_key => .erase_and_freep
  | .passphrase => .erase_and_freep
  | .salt => .erase_and_freep
  | .secret => .erase_and_freep
  | .base64_encoded => .erase_and_freep
  | .cid => .freep
  | .keyslot_as_string => .freep

/-- The spec's classification (§3, §5): derived secret, salt, decrypted key
and encoded passphrase are secret-bearing; the credential id and the decimal
keyslot string are not (the credential id is persisted in clear in the token
record anyway). -/
def secretBearing : BufKind → Bool
  | .decrypted_key => true
  | .passphrase => true
  | .salt => true
  | .secret => true
  | .base64_encoded => true
  | .cid => false
  | .keyslot_as_string => false

/-- Cleanup actions run at a scope exit: every buffer allocated (non-NULL) at
that point is released through its declared handler.  This is the semantics
of the C `_cleanup_` attribute, which runs on every exit path. -/
def cleanupsOf (allocated : List BufKind) : List (BufKind × CleanupHandler) :=
  allocated.map fun b => (b, bufCleanup b)

/-- Outcome oracle for the external calls `enroll_fido2` makes, in source
order: the device exchange (a function of the request it is handed), the
possible allocation failure of `base64mem`, `cryptsetup_set_minimal_pbkdf`,
`crypt_keyslot_add_by_volume_key` (new slot index on success),
the possible allocation failure of `asprintf`, `sd_json_buildo`, and
`cryptsetup_add_token_json`.  Errors carry the negative errno returned. -/
structure EnrollOutcomes where
  device : DeviceRequest → Except Int Fido2HmacResult
  base64Oom : Bool
  pbkdf : Except Int Unit
  keyslotAdd : Except Int Nat
  asprintfOom : Bool
  jsonBuild : Except Int Unit
  tokenAdd : Except Int Unit

/-- Result of a run of `enroll_fido2`: the returned value (new keyslot index
or negative errno), the volume state after the call, the storage-engine
operations performed, and the cleanup ledger of the exit path taken. -/
structure EnrollResult where
  ret : Except Int Nat
  vol : Volume
  ops : List StorageOp
  cleanups : List (BufKind × CleanupHandler)
deriving Repr

/-- Embedding of `enroll_fido2` (source lines 64–151).  Control flow is the
source's: device exchange; base64-encode the secret; set minimal PBKDF; add
the keyslot wrapping `volumeKey` under the encoded passphrase; format the
keyslot index as a decimal string; build the JSON token record — note the
flags written are `lock_with` as overwritten by the device's effective flags
(line 107) — and add it to the header.  Each `return` site carries the
cleanup ledger of the buffers allocated at that point. -/
def enroll_fido2 (vol : Volume) (device : String) (lockWith : Fido2EnrollFlags)
    (credAlg : Int) (volumeKey : Bytes) (o : EnrollOutcomes) : EnrollResult :=
  let rq := enrollDeviceRequest vol device lockWith credAlg
  match o.device rq with
  | .error r => ⟨.error r, vol, [], cleanupsOf []⟩
  | .ok dres =>
    -- cid, salt, secret now allocated
    if o.base64Oom then
      ⟨.error (-12), vol, [], cleanupsOf [.salt, .secret, .cid]⟩
    else
      let base64_encoded := base64mem dres.secret
      match o.pbkdf with
      | .error r =>
          ⟨.error r, vol, [.setMinimalPbkdf],
           cleanupsOf [.salt, .secret, .base64_encoded, .cid]⟩
      | .ok _ =>
        let vol1 := { vol with minimalPbkdf := true }
        match o.keyslotAdd with
        | .error r =>
            ⟨.error r, vol1, [.setMinimalPbkdf, .keyslotAdd],
             cleanupsOf [.salt, .secret, .base64_encoded, .cid]⟩
        | .ok keyslot =>
          let vol2 := { vol1 with
            keyslots := vol1.keyslots ++ [⟨keyslot, base64_encoded, volumeKey⟩] }
          if o.asprintfOom then
            ⟨.error (-12), vol2, [.setMinimalPbkdf, .keyslotAdd],
             cleanupsOf [.salt, .secret, .base64_encoded, .cid]⟩
          else
            let keyslot_as_string := toString keyslot
            match o.jsonBuild with
            | .error r =>
                ⟨.error r, vol2, [.setMinimalPbkdf, .keyslotAdd],
                 cleanupsOf [.salt, .secret, .base64_encoded, .cid,
                             .keyslot_as_string]⟩
            | .ok _ =>
              let token : TokenRecord :=
                { type := "systemd-fido2"
                  keyslots := [keyslot_as_string]
                  fido2Credential := base64mem dres.cid
                  fido2Salt := base64mem dres.salt
                  fido2Rp := "io.systemd.cryptsetup"
                  fido2ClientPinRequired := dres.effectiveFlags.pin
                  fido2UpRequired := dres.effectiveFlags.up
                  fido2UvRequired := dres.effectiveFlags.uv }
              match o.tokenAdd with
              | .error r =>
                  ⟨.error r, vol2, [.setMinimalPbkdf, .keyslotAdd, .tokenAdd],
                   cleanupsOf [.salt, .secret, .base64_encoded, .cid,
                               .keyslot_as_string]⟩
              | .ok _ =>
                  ⟨.ok keyslot,
                   { vol2 with tokens := vol2.tokens ++ [token] },
                   [.setMinimalPbkdf, .keyslotAdd, .tokenAdd],
                   cleanupsOf [.salt, .secret, .base64_encoded, .cid,
                               .keyslot_as_string]⟩

/-- Error classes of the device-backed acquisition during recovery (spec
§4.5). -/
inductive AcquireError
  | deviceAbsent
  | credentialNotFound
  | userVerificationBlocked
  | userDeclined
deriving DecidableEq, Repr

/-- Modelled from the spec: the errno with which `acquire_fido2_key_auto`
(declared in `cryptsetup-fido2.h`; its body is not under `src/`) reports each
error class.  The call site's own error handling (source lines 40–41)
documents the contract: `-EAGAIN` means "FIDO2 token does not exist, or UV is
blocked" — i.e. a missing device, an unrecognized credential, and blocked
user verification all surface as `-EAGAIN` (= -11); a user declining the
exchange propagates as its own errno (`-ECANCELED` = -125). -/
def AcquireError.toErrno : AcquireError → Int
  | .deviceAbsent => -11
  | .credentialNotFound => -11
  | .userVerificationBlocked => -11
  | .userDeclined => -125

/-- Outcome of `acquire_fido2_key_auto`: the decrypted per-token secret, or
an error class. -/
inductive AcquireOutcome
  | ok (decryptedKey : Bytes)
  | fail (e : AcquireError)

/-- Outcome oracle for the external calls of `load_volume_key_fido2`. -/
structure LoadOutcomes where
  acquire : AcquireOutcome
  base64Oom : Bool

/-- Modelled from the spec: `crypt_volume_key_get` (libcryptsetup storage
collaborator; §6 `unwrapAnySlot`).  Called with `CRYPT_ANY_SLOT` it tries the
candidate passphrase against every keyslot and returns the wrapped key of the
first slot it opens; it fails with `-EPERM` (= -1, the wrong-passphrase
error) exactly when no slot matches. -/
def crypt_volume_key_get (vol : Volume) (passphrase : String) : Except Int Bytes :=
  match vol.keyslots.find? (fun s => s.passphrase = passphrase) with
  | some s => .ok s.key
  | none => .error (-1)

/-- Result of a run of `load_volume_key_fido2`: the recovered volume key (or
negative errno), the volume state after the call, and the cleanup ledger of
the exit path taken. -/
structure LoadResult where
  ret : Except Int Bytes
  vol : Volume
  cleanups : List (BufKind × CleanupHandler)
deriving Repr

/-- Embedding of `load_volume_key_fido2` (source lines 12–62): acquire the
decrypted key via the FIDO2 device (an `-EAGAIN` failure is reported with a
dedicated message but the same return value, lines 40–41; any other failure
is returned as-is, lines 42–43); base64-encode it as the candidate
passphrase; unwrap the volume key from any slot. -/
def load_volume_key_fido2 (vol : Volume) (o : LoadOutcomes) : LoadResult :=
  match o.acquire with
  | .fail e => ⟨.error e.toErrno, vol, cleanupsOf []⟩
  | .ok decryptedKey =>
    if o.base64Oom then
      ⟨.error (-12), vol, cleanupsOf [.decrypted_key]⟩
    else
      let passphrase := base64mem decryptedKey
      match crypt_volume_key_get vol passphrase with
      | .error r => ⟨.error r, vol, cleanupsOf [.decrypted_key, .passphrase]⟩
      | .ok key => ⟨.ok key, vol, cleanupsOf [.decrypted_key, .passphrase]⟩

/-! ### Concrete example data for witnesses and counterexamples -/

/-- Example device-exchange result: the device upgraded the flags to require
UV even though the caller only asked for PIN. -/
def exDres : Fido2HmacResult :=
  { cid := [1, 2, 3], salt := [4, 5, 6], secret := [7, 8, 9]
    effectiveFlags := { pin := true, up := true, uv := true } }

/-- Flags the example caller requests: PIN and UP, but not UV. -/
def exReqFlags : Fido2EnrollFlags := { pin := true, up := true, uv := false }

/-- A pre-existing keyslot (the volume's prior unlock means). -/
def exSlot0 : Keyslot := { index := 0, passphrase := "oldpass", key := [9, 9] }

/-- Example volume with one prior keyslot and no token records. -/
def exVol : Volume :=
  { uuid := some "3f9c7a52", deviceName := "/dev/sda1", keyslots := [exSlot0]
    tokens := [], minimalPbkdf := false }

/-- Example volume without a UUID. -/
def exVolNoUuid : Volume := { exVol with uuid := none }

/-- Outcomes of a fully successful enrollment run: the device answers every
request with `exDres`, and every storage call succeeds (new slot index 1). -/
def exOkOutcomes : EnrollOutcomes :=
  { device := fun _ => .ok exDres, base64Oom := false, pbkdf := .ok ()
    keyslotAdd := .ok 1, asprintfOom := false, jsonBuild := .ok ()
    tokenAdd := .ok () }

/-- Same as `exOkOutcomes` except the token-record write fails with `-EIO`
(= -5) after the keyslot was added. -/
def exTokenFailOutcomes : EnrollOutcomes :=
  { exOkOutcomes with tokenAdd := .error (-5) }

/-- Same as `exOkOutcomes` except the keyslot addition fails with `-ENOSPC`
style error (no free slot). -/
def exSlotFailOutcomes : EnrollOutcomes :=
  { exOkOutcomes with keyslotAdd := .error (-28) }

/-- Example volume key enrolled in the examples. -/
def exKey : Bytes := [42, 43]

/-- Load outcomes whose acquisition rederives exactly the example secret. -/
def exLoadOk : LoadOutcomes := { acquire := .ok exDres.secret, base64Oom := false }

/-! ### Claim C1 -/

/-- C1, counterexample: with every step succeeding except the token-record
write (`cryptsetup_add_token_json` fails with `-EIO` after the keyslot was
added), `enroll_fido2` returns an error yet the final volume holds one more
keyslot than before and an unchanged token list — exactly the half-enrolled
state (extra slot, no token record describing it) the claim says must not
occur. -/
theorem enroll_metadata_write_failure_leaves_orphan_slot :
    (enroll_fido2 exVol "hidraw0" exReqFlags 0 exKey exTokenFailOutcomes).ret
        = .error (-5) ∧
    (enroll_fido2 exVol "hidraw0" exReqFlags 0 exKey
        exTokenFailOutcomes).vol.keyslots.length = exVol.keyslots.length + 1 ∧
    (enroll_fido2 exVol "hidraw0" exReqFlags 0 exKey
        exTokenFailOutcomes).vol.tokens = exVol.tokens :=
  ⟨rfl, rfl, rfl⟩

/-- C1 (amended): on every failing run of `enroll_fido2` the prior unlock
means survive — the pre-existing keyslots are all still present unchanged and
the token list is unchanged — but the keyslots may have grown by exactly the
one new slot (the orphan-slot window when the metadata write fails after the
slot was added). -/
theorem enroll_failure_preserves_prior_unlock_means
    (vol : Volume) (device : String) (lw : Fido2EnrollFlags) (ca : Int)
    (vk : Bytes) (o : EnrollOutcomes) (r : Int)
    (h : (enroll_fido2 vol device lw ca vk o).ret = .error r) :
    (enroll_fido2 vol device lw ca vk o).vol.tokens = vol.tokens ∧
    ((enroll_fido2 vol device lw ca vk o).vol.keyslots = vol.keyslots ∨
      ∃ s : Keyslot,
        (enroll_fido2 vol device lw ca vk o).vol.keyslots = vol.keyslots ++ [s]) := by
  simp only [enroll_fido2] at h ⊢
  cases hdev : o.device (enrollDeviceRequest vol device lw ca) with
  | error r' => simp [hdev]
  | ok dres =>
    simp only [hdev] at h ⊢
    cases hb : o.base64Oom with
    | true => simp [hb]
    | false =>
      simp only [hb, Bool.false_eq_true, if_false] at h ⊢
      cases hp : o.pbkdf with
      | error r' => simp [hp]
      | ok u =>
        simp only [hp] at h ⊢
        cases hk : o.keyslotAdd with
        | error r' => simp [hk]
        | ok keyslot =>
          simp only [hk] at h ⊢
          cases ha : o.asprintfOom with
          | true => simp [ha]
          | false =>
            simp only [ha, Bool.false_eq_true, if_false] at h ⊢
            cases hj : o.jsonBuild with
            | error r' => simp [hj]
            | ok u' =>
              simp only [hj] at h ⊢
              cases ht : o.tokenAdd with
              | error r' => simp [ht]
              | ok u'' => simp [ht] at h

/-- C1 amended, witness: the slot-addition-failure run satisfies the amended
statement concretely. -/
theorem enroll_failure_preserves_prior_unlock_means_witness :
    (enroll_fido2 exVol "hidraw0" exReqFlags 0 exKey
        exSlotFailOutcomes).vol.tokens = exVol.tokens ∧
    ((enroll_fido2 exVol "hidraw0" exReqFlags 0 exKey
        exSlotFailOutcomes).vol.keyslots = exVol.keyslots ∨
      ∃ s : Keyslot,
        (enroll_fido2 exVol "hidraw0" exReqFlags 0 exKey
          exSlotFailOutcomes).vol.keyslots = exVol.keyslots ++ [s]) :=
  enroll_failure_preserves_prior_unlock_means exVol "hidraw0" exReqFlags 0
    exKey exSlotFailOutcomes (-28) rfl

/-! ### Claim C2 -/

/-- C2: if the device exchange, the base64 encoding of the secret, the
minimal-PBKDF adjustment, or the keyslot addition fails, `enroll_fido2`
returns an error, never performs the token-record write, and leaves both the
token list and the keyslot list unchanged — so no token record ever
references a slot that was not successfully provisioned. -/
theorem enroll_no_metadata_write_before_slot
    (vol : Volume) (device : String) (lw : Fido2EnrollFlags) (ca : Int)
    (vk : Bytes) (o : EnrollOutcomes)
    (h : (∃ r, o.device (enrollDeviceRequest vol device lw ca) = .error r) ∨
         o.base64Oom = true ∨ (∃ r, o.pbkdf = .error r) ∨
         (∃ r, o.keyslotAdd = .error r)) :
    (∃ r, (enroll_fido2 vol device lw ca vk o).ret = .error r) ∧
    StorageOp.tokenAdd ∉ (enroll_fido2 vol device lw ca vk o).ops ∧
    (enroll_fido2 vol device lw ca vk o).vol.tokens = vol.tokens ∧
    (enroll_fido2 vol device lw ca vk o).vol.keyslots = vol.keyslots := by
  simp only [enroll_fido2]
  rcases h with ⟨r, hdev⟩ | hb | ⟨r, hp⟩ | ⟨r, hk⟩
  · simp [hdev]
  · cases hdev : o.device (enrollDeviceRequest vol device lw ca) with
    | error r' => simp [hdev]
    | ok dres => simp [hdev, hb]
  · cases hdev : o.device (enrollDeviceRequest vol device lw ca) with
    | error r' => simp [hdev]
    | ok dres =>
      cases hb : o.base64Oom with
      | true => simp [hdev, hb]
      | false => simp [hdev, hb, hp]
  · cases hdev : o.device (enrollDeviceRequest vol device lw ca) with
    | error r' => simp [hdev]
    | ok dres =>
      cases hb : o.base64Oom with
      | true => simp [hdev, hb]
      | false =>
        cases hp : o.pbkdf with
        | error r' => simp [hdev, hb, hp]
        | ok u => simp [hdev, hb, hp, hk]

/-- C2, witness: the keyslot-addition-failure run satisfies the statement
concretely. -/
theorem enroll_no_metadata_write_before_slot_witness :
    (∃ r, (enroll_fido2 exVol "hidraw0" exReqFlags 0 exKey
        exSlotFailOutcomes).ret = .error r) ∧
    StorageOp.tokenAdd ∉ (enroll_fido2 exVol "hidraw0" exReqFlags 0 exKey
        exSlotFailOutcomes).ops ∧
    (enroll_fido2 exVol "hidraw0" exReqFlags 0 exKey
        exSlotFailOutcomes).vol.tokens = exVol.tokens ∧
    (enroll_fido2 exVol "hidraw0" exReqFlags 0 exKey
        exSlotFailOutcomes).vol.keyslots = exVol.keyslots :=
  enroll_no_metadata_write_before_slot exVol "hidraw0" exReqFlags 0 exKey
    exSlotFailOutcomes (Or.inr (Or.inr (Or.inr ⟨-28, rfl⟩)))

/-! ### Helper lemmas shared across claims -/

/-- Helper: a successful run of `enroll_fido2` determines the whole result:
the device exchange succeeded with some `dres`, the keyslot addition returned
the result index `k`, and the final volume is the input volume with minimal
PBKDF set, the one new keyslot wrapping the volume key under the base64 of
the derived secret, and the one new token record appended. -/
theorem enroll_success_characterization
    (vol : Volume) (device : String) (lw : Fido2EnrollFlags) (ca : Int)
    (vk : Bytes) (o : EnrollOutcomes) (k : Nat)
    (h : (enroll_fido2 vol device lw ca vk o).ret = .ok k) :
    ∃ dres, o.device (enrollDeviceRequest vol device lw ca) = .ok dres ∧
      o.keyslotAdd = .ok k ∧
      (enroll_fido2 vol device lw ca vk o).vol =
        { vol with
          minimalPbkdf := true
          keyslots := vol.keyslots ++ [⟨k, base64mem dres.secret, vk⟩]
          tokens := vol.tokens ++
            [{ type := "systemd-fido2"
               keyslots := [toString k]
               fido2Credential := base64mem dres.cid
               fido2Salt := base64mem dres.salt
               fido2Rp := "io.systemd.cryptsetup"
               fido2ClientPinRequired := dres.effectiveFlags.pin
               fido2UpRequired := dres.effectiveFlags.up
               fido2UvRequired := dres.effectiveFlags.uv }] } := by
  simp only [enroll_fido2] at h ⊢
  cases hdev : o.device (enrollDeviceRequest vol device lw ca) with
  | error r => simp [hdev] at h
  | ok dres =>
    simp only [hdev] at h ⊢
    refine ⟨dres, rfl, ?_⟩
    cases hb : o.base64Oom with
    | true => simp [hb] at h
    | false =>
      simp only [hb, Bool.false_eq_true, if_false] at h ⊢
      cases hp : o.pbkdf with
      | error r => simp [hp] at h
      | ok u =>
        simp only [hp] at h ⊢
        cases hk : o.keyslotAdd with
        | error r => simp [hk] at h
        | ok keyslot =>
          simp only [hk] at h ⊢
          cases ha : o.asprintfOom with
          | true => simp [ha] at h
          | false =>
            simp only [ha, Bool.false_eq_true, if_false] at h ⊢
            cases hj : o.jsonBuild with
            | error r => simp [hj] at h
            | ok u' =>
              simp only [hj] at h ⊢
              cases ht : o.tokenAdd with
              | error r => simp [ht] at h
              | ok u'' =>
                simp only [ht] at h ⊢
                obtain rfl : keyslot = k := by simpa using h
                exact ⟨rfl, rfl⟩

/-- Helper: `crypt_volume_key_get` succeeds whenever some keyslot's
passphrase matches the candidate. -/
theorem crypt_volume_key_get_ok_of_match (vol : Volume) (p : String)
    (h : ∃ s ∈ vol.keyslots, s.passphrase = p) :
    ∃ key, crypt_volume_key_get vol p = .ok key := by
  unfold crypt_volume_key_get
  obtain ⟨s, hs, hp⟩ := h
  have hsome : (vol.keyslots.find? (fun s => s.passphrase = p)).isSome := by
    rw [List.find?_isSome]
    exact ⟨s, hs, by simp [hp]⟩
  obtain ⟨s', hs'⟩ := Option.isSome_iff_exists.mp hsome
  rw [hs']
  exact ⟨s'.key, rfl⟩

/-! ### Claim C3 -/

/-- C3: the secret encoder is the one deterministic function `base64mem`
shared by both pipelines.  If enrollment succeeds with derived secret
`dres.secret`, the new keyslot's passphrase is exactly `base64mem
dres.secret`; and a recovery run whose device exchange yields byte-identical
secret bytes encodes them to the same passphrase and therefore opens a slot
of the enrolled volume. -/
theorem secret_encoder_shared_bit_identical
    (vol : Volume) (device : String) (lw : Fido2EnrollFlags) (ca : Int)
    (vk : Bytes) (o : EnrollOutcomes) (dres : Fido2HmacResult) (k : Nat)
    (lo : LoadOutcomes)
    (hdev : o.device (enrollDeviceRequest vol device lw ca) = .ok dres)
    (hret : (enroll_fido2 vol device lw ca vk o).ret = .ok k)
    (hacq : lo.acquire = .ok dres.secret)
    (hoom : lo.base64Oom = false) :
    Keyslot.mk k (base64mem dres.secret) vk
        ∈ (enroll_fido2 vol device lw ca vk o).vol.keyslots ∧
    ∃ key,
      (load_volume_key_fido2 (enroll_fido2 vol device lw ca vk o).vol lo).ret
        = .ok key := by
  obtain ⟨dres', hdev', hk, hvol⟩ :=
    enroll_success_characterization vol device lw ca vk o k hret
  rw [hdev] at hdev'
  injection hdev' with hd
  subst hd
  have hmem : Keyslot.mk k (base64mem dres.secret) vk
      ∈ (enroll_fido2 vol device lw ca vk o).vol.keyslots := by
    rw [hvol]; simp
  refine ⟨hmem, ?_⟩
  obtain ⟨key, hkey⟩ :=
    crypt_volume_key_get_ok_of_match (enroll_fido2 vol device lw ca vk o).vol
      (base64mem dres.secret) ⟨_, hmem, rfl⟩
  refine ⟨key, ?_⟩
  simp [load_volume_key_fido2, hacq, hoom, hkey]

/-- C3, witness: the example enrollment followed by a recovery rederiving the
same secret bytes. -/
theorem secret_encoder_shared_bit_identical_witness :
    Keyslot.mk 1 (base64mem exDres.secret) exKey
        ∈ (enroll_fido2 exVol "hidraw0" exReqFlags 0 exKey
            exOkOutcomes).vol.keyslots ∧
    ∃ key,
      (load_volume_key_fido2
        (enroll_fido2 exVol "hidraw0" exReqFlags 0 exKey exOkOutcomes).vol
        exLoadOk).ret = .ok key :=
  secret_encoder_shared_bit_identical exVol "hidraw0" exReqFlags 0 exKey
    exOkOutcomes exDres 1 exLoadOk rfl rfl rfl rfl

/-! ### Claim C4 -/

/-- C4: the three flag booleans persisted in the token record are computed
from the effective flags returned by the device exchange (written back over
`lock_with` through the call's out-parameter), not from the flags the caller
passed in: whatever `lw` the caller requested, the persisted booleans equal
the bits of `dres.effectiveFlags`. -/
theorem token_flags_are_effective_flags
    (vol : Volume) (device : String) (lw : Fido2EnrollFlags) (ca : Int)
    (vk : Bytes) (o : EnrollOutcomes) (dres : Fido2HmacResult) (k : Nat)
    (hdev : o.device (enrollDeviceRequest vol device lw ca) = .ok dres)
    (hret : (enroll_fido2 vol device lw ca vk o).ret = .ok k) :
    ∃ t, (enroll_fido2 vol device lw ca vk o).vol.tokens = vol.tokens ++ [t] ∧
      t.fido2ClientPinRequired = dres.effectiveFlags.pin ∧
      t.fido2UpRequired = dres.effectiveFlags.up ∧
      t.fido2UvRequired = dres.effectiveFlags.uv := by
  obtain ⟨dres', hdev', hk, hvol⟩ :=
    enroll_success_characterization vol device lw ca vk o k hret
  rw [hdev] at hdev'
  injection hdev' with hd
  subst hd
  exact ⟨_, by rw [hvol], rfl, rfl, rfl⟩

/-- C4, witness: the example caller requests only PIN and UP
(`exReqFlags.uv = false`), the device upgrades to UV, and the persisted
record's uv-required boolean is the effective `true`. -/
theorem token_flags_are_effective_flags_witness :
    exReqFlags.uv = false ∧
    ∃ t, (enroll_fido2 exVol "hidraw0" exReqFlags 0 exKey
        exOkOutcomes).vol.tokens = exVol.tokens ++ [t] ∧
      t.fido2ClientPinRequired = exDres.effectiveFlags.pin ∧
      t.fido2UpRequired = exDres.effectiveFlags.up ∧
      t.fido2UvRequired = exDres.effectiveFlags.uv :=
  ⟨rfl, token_flags_are_effective_flags exVol "hidraw0" exReqFlags 0 exKey
    exOkOutcomes exDres 1 rfl rfl⟩

/-! ### Claim C5 -/

/-- C5: a successful run of `enroll_fido2` creates exactly one new keyslot
(appended to the prior ones), returns its index, and writes exactly one token
record whose keyslots array holds that index as a decimal string, whose
credential and salt are the base64 encodings of the device-returned bytes,
whose relying party is the constant `"io.systemd.cryptsetup"`, and whose
three booleans are the effective flag bits. -/
theorem enroll_success_postcondition
    (vol : Volume) (device : String) (lw : Fido2EnrollFlags) (ca : Int)
    (vk : Bytes) (o : EnrollOutcomes) (k : Nat)
    (hret : (enroll_fido2 vol device lw ca vk o).ret = .ok k) :
    ∃ dres, o.device (enrollDeviceRequest vol device lw ca) = .ok dres ∧
      (enroll_fido2 vol device lw ca vk o).vol.keyslots =
        vol.keyslots ++ [⟨k, base64mem dres.secret, vk⟩] ∧
      (enroll_fido2 vol device lw ca vk o).vol.tokens =
        vol.tokens ++
          [{ type := "systemd-fido2"
             keyslots := [toString k]
             fido2Credential := base64mem dres.cid
             fido2Salt := base64mem dres.salt
             fido2Rp := "io.systemd.cryptsetup"
             fido2ClientPinRequired := dres.effectiveFlags.pin
             fido2UpRequired := dres.effectiveFlags.up
             fido2UvRequired := dres.effectiveFlags.uv }] := by
  obtain ⟨dres, hdev, hk, hvol⟩ :=
    enroll_success_characterization vol device lw ca vk o k hret
  exact ⟨dres, hdev, by rw [hvol], by rw [hvol]⟩

/-- C5, witness: the fully successful example run, with new slot index 1 and
the token record spelled out. -/
theorem enroll_success_postcondition_witness :
    ∃ dres, exOkOutcomes.device
        (enrollDeviceRequest exVol "hidraw0" exReqFlags 0) = .ok dres ∧
      (enroll_fido2 exVol "hidraw0" exReqFlags 0 exKey
          exOkOutcomes).vol.keyslots =
        exVol.keyslots ++ [⟨1, base64mem dres.secret, exKey⟩] ∧
      (enroll_fido2 exVol "hidraw0" exReqFlags 0 exKey
          exOkOutcomes).vol.tokens =
        exVol.tokens ++
          [{ type := "systemd-fido2"
             keyslots := [toString 1]
             fido2Credential := base64mem dres.cid
             fido2Salt := base64mem dres.salt
             fido2Rp := "io.systemd.cryptsetup"
             fido2ClientPinRequired := dres.effectiveFlags.pin
             fido2UpRequired := dres.effectiveFlags.up
             fido2UvRequired := dres.effectiveFlags.uv }] :=
  enroll_success_postcondition exVol "hidraw0" exReqFlags 0 exKey
    exOkOutcomes 1 rfl

/-! ### Claim C6 -/

/-- C6, counterexample: a recovery run whose device exchange fails because
the device does not recognize the stored credential and one whose device
exchange fails because user verification is blocked return the identical
result (`-EAGAIN` = -11, the errno behind "FIDO2 token does not exist, or UV
is blocked"), so the two classes are not reported distinctly to the
caller. -/
theorem load_conflates_credential_not_found_and_uv_blocked :
    (load_volume_key_fido2 exVol
        { acquire := .fail .credentialNotFound, base64Oom := false }).ret =
      (load_volume_key_fido2 exVol
        { acquire := .fail .userVerificationBlocked, base64Oom := false }).ret ∧
    (load_volume_key_fido2 exVol
        { acquire := .fail .credentialNotFound, base64Oom := false }).ret =
      .error (-11) :=
  ⟨rfl, rfl⟩

/-- C6 (amended): every device-acquisition error is propagated to the caller
with its errno — none is swallowed — but `CredentialNotFound` and
`UserVerificationBlocked` (and `DeviceAbsent`) are conflated into the single
`-EAGAIN` result with one combined message; only `UserDeclined` keeps a
distinct code. -/
theorem load_error_propagation
    (vol : Volume) (o : LoadOutcomes) (e : AcquireError)
    (h : o.acquire = .fail e) :
    (load_volume_key_fido2 vol o).ret = .error e.toErrno ∧
    AcquireError.toErrno .credentialNotFound
      = AcquireError.toErrno .userVerificationBlocked ∧
    AcquireError.toErrno .userDeclined
      ≠ AcquireError.toErrno .userVerificationBlocked := by
  refine ⟨?_, rfl, by decide⟩
  simp [load_volume_key_fido2, h]

/-- C6 amended, witness: a user-declined run propagates `-ECANCELED`. -/
theorem load_error_propagation_witness :
    (load_volume_key_fido2 exVol
        { acquire := .fail .userDeclined, base64Oom := false }).ret =
      .error AcquireError.userDeclined.toErrno ∧
    AcquireError.toErrno .credentialNotFound
      = AcquireError.toErrno .userVerificationBlocked ∧
    AcquireError.toErrno .userDeclined
      ≠ AcquireError.toErrno .userVerificationBlocked :=
  load_error_propagation exVol
    { acquire := .fail .userDeclined, base64Oom := false } .userDeclined rfl

/-! ### Claim C7 -/

/-- C7: when the device exchange rederives secret bytes `s`, the slot
validation hands the encoded passphrase to `crypt_volume_key_get` with
`CRYPT_ANY_SLOT` (no slot index), and the run ends in the wrong-passphrase
error `-EPERM` (= -1) exactly when no keyslot's passphrase equals
`base64mem s`; that code is distinct from every device/transport errno. -/
theorem load_wrong_secret_iff_no_slot_matches
    (vol : Volume) (o : LoadOutcomes) (s : Bytes)
    (hacq : o.acquire = .ok s) (hoom : o.base64Oom = false) :
    ((load_volume_key_fido2 vol o).ret = .error (-1) ↔
      ∀ sl ∈ vol.keyslots, sl.passphrase ≠ base64mem s) ∧
    ∀ e : AcquireError, (-1 : Int) ≠ e.toErrno := by
  refine ⟨?_, by intro e; cases e <;> decide⟩
  cases hfind : vol.keyslots.find? (fun sl => sl.passphrase = base64mem s) with
  | none =>
    simp only [load_volume_key_fido2, crypt_volume_key_get, hacq, hoom,
      Bool.false_eq_true, if_false, hfind]
    constructor
    · intro _ sl hsl
      have := List.find?_eq_none.mp hfind sl hsl
      simpa using this
    · intro _; trivial
  | some sl =>
    have hmem := List.mem_of_find?_eq_some hfind
    have hp : sl.passphrase = base64mem s := by
      simpa using List.find?_some hfind
    simp only [load_volume_key_fido2, crypt_volume_key_get, hacq, hoom,
      Bool.false_eq_true, if_false, hfind]
    constructor
    · intro hcontra; exact absurd hcontra (by simp)
    · intro hall; exact absurd hp (hall sl hmem)

/-- C7, witness: on the example volume (single slot with passphrase
"oldpass") a rederived secret encoding to "BwgJ" opens no slot and the run
ends in `-EPERM`. -/
theorem load_wrong_secret_iff_no_slot_matches_witness :
    ((load_volume_key_fido2 exVol exLoadOk).ret = .error (-1) ↔
      ∀ sl ∈ exVol.keyslots, sl.passphrase ≠ base64mem exDres.secret) ∧
    ∀ e : AcquireError, (-1 : Int) ≠ e.toErrno :=
  load_wrong_secret_iff_no_slot_matches exVol exLoadOk exDres.secret rfl rfl

/-! ### Claim C8 -/

/-- C8: `load_volume_key_fido2` never mutates the volume: on every path —
success, acquisition failure of any class (user-verification-blocked
included), encoding failure, or wrong secret — the volume state after the
call equals the input state, so every recovery run is idempotent and
restartable. -/
theorem load_volume_key_fido2_no_mutation (vol : Volume) (o : LoadOutcomes) :
    (load_volume_key_fido2 vol o).vol = vol := by
  unfold load_volume_key_fido2
  cases o.acquire with
  | fail e => rfl
  | ok dk =>
    cases hb : o.base64Oom with
    | true => simp [hb]
    | false =>
      simp only [hb, Bool.false_eq_true, if_false]
      cases crypt_volume_key_get vol (base64mem dk) <;> rfl

/-! ### Claim C9 -/

/-- Helper: every cleanup action pairs a buffer with the handler its
declaration carries. -/
theorem mem_cleanupsOf (l : List BufKind) (p : BufKind × CleanupHandler)
    (hp : p ∈ cleanupsOf l) : p.2 = bufCleanup p.1 := by
  unfold cleanupsOf at hp
  obtain ⟨b, hb, rfl⟩ := List.mem_map.mp hp
  rfl

/-- Helper: the cleanup ledger of every `enroll_fido2` exit path is of the
`cleanupsOf` form (each allocated buffer released via its declared
handler). -/
theorem enroll_cleanups_shape
    (vol : Volume) (device : String) (lw : Fido2EnrollFlags) (ca : Int)
    (vk : Bytes) (o : EnrollOutcomes) :
    ∃ l, (enroll_fido2 vol device lw ca vk o).cleanups = cleanupsOf l := by
  simp only [enroll_fido2]
  cases o.device (enrollDeviceRequest vol device lw ca) with
  | error r => exact ⟨[], rfl⟩
  | ok dres =>
    cases o.base64Oom with
    | true => exact ⟨_, rfl⟩
    | false =>
      simp only [Bool.false_eq_true, if_false]
      cases o.pbkdf with
      | error r => exact ⟨_, rfl⟩
      | ok u =>
        cases o.keyslotAdd with
        | error r => exact ⟨_, rfl⟩
        | ok keyslot =>
          cases o.asprintfOom with
          | true => exact ⟨_, rfl⟩
          | false =>
            simp only [Bool.false_eq_true, if_false]
            cases o.jsonBuild with
            | error r => exact ⟨_, rfl⟩
            | ok u' =>
              cases o.tokenAdd with
              | error r => exact ⟨_, rfl⟩
              | ok u'' => exact ⟨_, rfl⟩

/-- Helper: the cleanup ledger of every `load_volume_key_fido2` exit path is
of the `cleanupsOf` form. -/
theorem load_cleanups_shape (vol : Volume) (o : LoadOutcomes) :
    ∃ l, (load_volume_key_fido2 vol o).cleanups = cleanupsOf l := by
  unfold load_volume_key_fido2
  cases o.acquire with
  | fail e => exact ⟨[], rfl⟩
  | ok dk =>
    cases o.base64Oom with
    | true => exact ⟨_, rfl⟩
    | false =>
      simp only [Bool.false_eq_true, if_false]
      cases crypt_volume_key_get vol (base64mem dk) with
      | error r => exact ⟨_, rfl⟩
      | ok key => exact ⟨_, rfl⟩

/-- C9: on every exit path of both functions, every secret-bearing buffer
(derived secret, salt, decrypted key, encoded passphrase) that appears in the
cleanup ledger is released through `erase_and_freep` — zeroed before its
memory is freed — never through a plain free. -/
theorem secret_buffers_always_erased
    (vol : Volume) (device : String) (lw : Fido2EnrollFlags) (ca : Int)
    (vk : Bytes) (o : EnrollOutcomes) (volL : Volume) (oL : LoadOutcomes)
    (p : BufKind × CleanupHandler)
    (hp : p ∈ (enroll_fido2 vol device lw ca vk o).cleanups ∨
          p ∈ (load_volume_key_fido2 volL oL).cleanups)
    (hs : secretBearing p.1 = true) :
    p.2 = CleanupHandler.erase_and_freep := by
  have hhandler : p.2 = bufCleanup p.1 := by
    rcases hp with hp | hp
    · obtain ⟨l, hl⟩ := enroll_cleanups_shape vol device lw ca vk o
      exact mem_cleanupsOf l p (hl ▸ hp)
    · obtain ⟨l, hl⟩ := load_cleanups_shape volL oL
      exact mem_cleanupsOf l p (hl ▸ hp)
  rw [hhandler]
  revert hs
  cases p.1 <;> simp [bufCleanup, secretBearing]

/-- C9, witness: in the fully successful example enrollment the derived
secret's buffer is released through `erase_and_freep`. -/
theorem secret_buffers_always_erased_witness :
    ((BufKind.secret, CleanupHandler.erase_and_freep) :
        BufKind × CleanupHandler).2 = CleanupHandler.erase_and_freep :=
  secret_buffers_always_erased exVol "hidraw0" exReqFlags 0 exKey exOkOutcomes
    exVol exLoadOk (BufKind.secret, CleanupHandler.erase_and_freep)
    (Or.inl (by decide)) rfl

/-! ### Claim C10 -/

/-- C10: the device request built by `enroll_fido2` uses the volume's UUID
string as both FIDO2 user id and user name and the device node name as the
display name; a volume without a UUID gets the empty string (`strempty`)
instead, and enrollment still proceeds to success when the remaining steps
succeed. -/
theorem enroll_uses_uuid_as_user_identity
    (vol : Volume) (device : String) (lw : Fido2EnrollFlags) (ca : Int)
    (vk : Bytes) (o : EnrollOutcomes) (dres : Fido2HmacResult) (k : Nat)
    (hdev : ∀ rq, o.device rq = .ok dres)
    (hoom : o.base64Oom = false) (hpb : o.pbkdf = .ok ())
    (hk : o.keyslotAdd = .ok k) (ha : o.asprintfOom = false)
    (hj : o.jsonBuild = .ok ()) (ht : o.tokenAdd = .ok ()) :
    (enrollDeviceRequest vol device lw ca).userId = vol.uuid.getD "" ∧
    (enrollDeviceRequest vol device lw ca).userName = vol.uuid.getD "" ∧
    (enrollDeviceRequest vol device lw ca).userDisplayName = vol.deviceName ∧
    (vol.uuid = none → (enrollDeviceRequest vol device lw ca).userId = "") ∧
    (enroll_fido2 vol device lw ca vk o).ret = .ok k := by
  refine ⟨rfl, rfl, rfl, fun h => by simp [enrollDeviceRequest, h], ?_⟩
  simp [enroll_fido2, hdev (enrollDeviceRequest vol device lw ca), hoom, hpb,
    hk, ha, hj, ht]

/-- C10, witness: on the example volume without a UUID the request's user id
and name are empty and the enrollment succeeds with slot 1. -/
theorem enroll_uses_uuid_as_user_identity_witness :
    (enrollDeviceRequest exVolNoUuid "hidraw0" exReqFlags 0).userId =
        exVolNoUuid.uuid.getD "" ∧
    (enrollDeviceRequest exVolNoUuid "hidraw0" exReqFlags 0).userName =
        exVolNoUuid.uuid.getD "" ∧
    (enrollDeviceRequest exVolNoUuid "hidraw0" exReqFlags 0).userDisplayName =
        exVolNoUuid.deviceName ∧
    (exVolNoUuid.uuid = none →
      (enrollDeviceRequest exVolNoUuid "hidraw0" exReqFlags 0).userId = "") ∧
    (enroll_fido2 exVolNoUuid "hidraw0" exReqFlags 0 exKey exOkOutcomes).ret =
        .ok 1 :=
  enroll_uses_uuid_as_user_identity exVolNoUuid "hidraw0" exReqFlags 0 exKey
    exOkOutcomes exDres 1 (fun _ => rfl) rfl rfl rfl rfl rfl rfl

end Fido2
